import Mathlib

/-!
Verification of the dental-practice synthetic data generators
(`generate-pat-data.js` and `generate-fin-data.js`) against their
natural-language specification.

The JavaScript is shallowly embedded: every `Math.random()`-derived value
becomes an explicit parameter (with its range captured by a validity
predicate where a claim needs it), JS numbers become `ℚ`, JS integer
results of `Math.round` become `ℤ`, and `Math.round x` is embedded as
`⌊x + 1/2⌋`, which agrees with JS rounding (half-up) on all reals.
-/

namespace Dental

/-- JS `Math.round`: round half toward positive infinity, `⌊x + 1/2⌋`. -/
def jsRound (q : ℚ) : ℤ := ⌊q + 1/2⌋

theorem jsRound_le (q : ℚ) : (jsRound q : ℚ) ≤ q + 1/2 :=
  Int.floor_le _

theorem lt_jsRound (q : ℚ) : q - 1/2 < (jsRound q : ℚ) := by
  have h := Int.lt_floor_add_one (q + 1/2)
  unfold jsRound
  linarith

/-! ## Embedding of `generate-pat-data.js` -/

/-- An insurance plan of the patient generator's registry. -/
structure InsurancePlan where
  name : String
  avg_reimbursement_rate : ℚ
deriving DecidableEq

/-- The `insuranceProviders` registry of `generate-pat-data.js`. -/
def insuranceProviders : List InsurancePlan :=
  [⟨"Delta Dental", 85/100⟩,
   ⟨"Cigna Dental", 80/100⟩,
   ⟨"Aetna", 75/100⟩,
   ⟨"MetLife", 82/100⟩,
   ⟨"Guardian", 78/100⟩,
   ⟨"No Insurance", 1⟩]

/-- Names an insured patient can carry: `generatePatients` draws an index in
`[0, insuranceProviders.length - 1)`, i.e. every plan except the final
`"No Insurance"` sentinel. -/
def insuredPlanNames : List String :=
  insuranceProviders.dropLast.map (fun p => p.name)

/-- A procedure of the `procedures` catalogue (fields used by the claims). -/
structure Procedure where
  code : String
  category : String
  avg_fee : ℤ
deriving DecidableEq

/-- The `procedures` catalogue of `generate-pat-data.js` (code, category,
average fee). -/
def procedures : List Procedure :=
  [⟨"D0120", "Diagnostic", 60⟩,
   ⟨"D0150", "Diagnostic", 110⟩,
   ⟨"D0210", "Diagnostic", 150⟩,
   ⟨"D0220", "Diagnostic", 35⟩,
   ⟨"D0274", "Diagnostic", 70⟩,
   ⟨"D1110", "Preventive", 110⟩,
   ⟨"D1120", "Preventive", 85⟩,
   ⟨"D1208", "Preventive", 45⟩,
   ⟨"D1351", "Preventive", 60⟩,
   ⟨"D2140", "Restorative", 155⟩,
   ⟨"D2150", "Restorative", 195⟩,
   ⟨"D2160", "Restorative", 235⟩,
   ⟨"D2330", "Restorative", 175⟩,
   ⟨"D2331", "Restorative", 215⟩,
   ⟨"D2332", "Restorative", 255⟩,
   ⟨"D2740", "Restorative", 1250⟩,
   ⟨"D2750", "Restorative", 1150⟩,
   ⟨"D3310", "Endodontic", 825⟩,
   ⟨"D3320", "Endodontic", 950⟩,
   ⟨"D3330", "Endodontic", 1150⟩,
   ⟨"D4341", "Periodontic", 275⟩,
   ⟨"D4910", "Periodontic", 135⟩,
   ⟨"D5110", "Prosthodontic", 1850⟩,
   ⟨"D5120", "Prosthodontic", 1850⟩,
   ⟨"D5213", "Prosthodontic", 1650⟩,
   ⟨"D5214", "Prosthodontic", 1650⟩,
   ⟨"D6010", "Implant", 2100⟩,
   ⟨"D6056", "Implant", 650⟩,
   ⟨"D6058", "Implant", 1550⟩,
   ⟨"D8080", "Orthodontic", 5500⟩,
   ⟨"D8090", "Orthodontic", 6200⟩,
   ⟨"D9110", "Adjunctive", 125⟩,
   ⟨"D9215", "Adjunctive", 45⟩,
   ⟨"D9310", "Adjunctive", 95⟩]

/-- Patient fields copied into appointment rows or used by the financial
branch. -/
structure Patient where
  patient_id : String
  name : String
  registration_date : String
  insurance_provider : String
deriving DecidableEq

/-- Base reimbursement rate lookup of `generateAppointmentData`:
`insuranceProviders.find(p => p.name === ...)`, falling back to `0.75`
when the plan name is not in the registry. -/
def baseReimbursementRate (planName : String) : ℚ :=
  match insuranceProviders.find? (fun p => p.name == planName) with
  | some p => p.avg_reimbursement_rate
  | none => 75/100

/-- Effective coverage rate: perturb the base rate by `0.9 + u * 0.2`
(`u = Math.random() ∈ [0,1)`), then clamp into `[0.5, 0.95]` with
`Math.max(0.5, Math.min(0.95, ·))`. -/
def coverageRate (planName : String) (u : ℚ) : ℚ :=
  max (1/2) (min (95/100) (baseReimbursementRate planName * (9/10 + u * (2/10))))

/-- `chargedAmount = Math.round(procedure.avg_fee * (0.9 + Math.random() * 0.2))`. -/
def chargedAmountOf (fee : ℤ) (u : ℚ) : ℤ :=
  jsRound ((fee : ℚ) * (9/10 + u * (2/10)))

/-- The random draws consumed by one procedure row of
`generateAppointmentData` (each `Math.random()` call or value derived
from one becomes a field). -/
structure ApptDraws where
  feeU : ℚ
  rateU : ℚ
  hasDiscount : Bool
  discountN : ℤ
  isPaid : Bool
  paymentMethod : String
  toothNumber : String
  hasTreatmentPlan : Bool
  tpId : String
  tpCreationDate : String
  tpIsCompleted : Bool
  tpCompletionDate : String
  tpPartialRate : ℤ
  estMult : ℚ
  claimIsPaid : Bool
  claimPendingCoin : Bool
  claimPaymentDate : String
deriving DecidableEq

/-- One generated appointment/procedure row (fields the claims mention). -/
structure AppointmentRecord where
  Visit_ID : String
  Procedure_ID : String
  Patient_ID : String
  Date_of_Service : String
  Appointment_Status : String
  Procedure_Code : String
  Procedure_Description : String
  Procedure_Category : String
  Tooth_Number : String
  Charged_Amount : ℤ
  Insurance_Provider : String
  Insurance_Covered_Amount : ℤ
  Patient_Responsibility : ℤ
  Discount_Applied : ℤ
  Out_of_Pocket : ℤ
  Amount_Paid : ℤ
  Payment_Method : String
  Payment_Status : String
  Is_New_Patient : Bool
  Insurance_Claim_Status : String
  Insurance_Claim_Submission_Date : String
  Insurance_Claim_Payment_Date : String
  Treatment_Plan_ID : String
  Treatment_Plan_Creation_Date : String
  Treatment_Plan_Completion_Date : String
  Treatment_Plan_Completion_Rate : ℤ
  Estimated_Total_Cost : ℤ
deriving DecidableEq

/-- The `Completed` branch of `generateAppointmentData`: full financial,
payment, claim and treatment-plan calculations. `visitDateStr` is the
already-formatted `Date_of_Service`; date-arithmetic results
(`tpCreationDate`, `claimPaymentDate`, ...) are carried as the strings the
JS produces, since no claim inspects their contents. -/
def mkCompletedRecord (visitId procId : String) (patient : Patient)
    (proc : Procedure) (description : String) (visitDateStr : String)
    (d : ApptDraws) : AppointmentRecord :=
  let chargedAmount := chargedAmountOf proc.avg_fee d.feeU
  let hasInsurance := patient.insurance_provider ≠ "No Insurance"
  let insuranceCovered : ℤ :=
    if hasInsurance then
      jsRound ((chargedAmount : ℚ) * coverageRate patient.insurance_provider d.rateU)
    else 0
  let patientResponsibility := chargedAmount - insuranceCovered
  let discountRate : ℚ := if d.hasDiscount then (d.discountN : ℚ) / 10 else 0
  let discountAmount := jsRound ((patientResponsibility : ℚ) * discountRate)
  let outOfPocket := patientResponsibility - discountAmount
  let amountPaid := if d.isPaid then outOfPocket else 0
  let needsTooth := proc.category = "Restorative" ∨ proc.category = "Endodontic" ∨
    proc.category = "Periodontic" ∨ proc.category = "Implant"
  let claimStatus :=
    if hasInsurance then
      if d.claimIsPaid then "Paid" else if d.claimPendingCoin then "Pending" else "Denied"
    else ""
  { Visit_ID := visitId
    Procedure_ID := procId
    Patient_ID := patient.patient_id
    Date_of_Service := visitDateStr
    Appointment_Status := "Completed"
    Procedure_Code := proc.code
    Procedure_Description := description
    Procedure_Category := proc.category
    Tooth_Number := if needsTooth then d.toothNumber else ""
    Charged_Amount := chargedAmount
    Insurance_Provider := patient.insurance_provider
    Insurance_Covered_Amount := insuranceCovered
    Patient_Responsibility := patientResponsibility
    Discount_Applied := discountAmount
    Out_of_Pocket := outOfPocket
    Amount_Paid := amountPaid
    Payment_Method := if d.isPaid then d.paymentMethod else ""
    Payment_Status := if d.isPaid then "Paid" else "Outstanding"
    Is_New_Patient := patient.registration_date == visitDateStr
    Insurance_Claim_Status := claimStatus
    Insurance_Claim_Submission_Date := if hasInsurance then visitDateStr else ""
    Insurance_Claim_Payment_Date := if claimStatus = "Paid" then d.claimPaymentDate else ""
    Treatment_Plan_ID := if d.hasTreatmentPlan then d.tpId else ""
    Treatment_Plan_Creation_Date := if d.hasTreatmentPlan then d.tpCreationDate else ""
    Treatment_Plan_Completion_Date :=
      if d.hasTreatmentPlan ∧ d.tpIsCompleted then d.tpCompletionDate else ""
    Treatment_Plan_Completion_Rate :=
      if d.hasTreatmentPlan then (if d.tpIsCompleted then 100 else d.tpPartialRate) else 0
    Estimated_Total_Cost :=
      if d.hasTreatmentPlan then jsRound ((chargedAmount : ℚ) * (1 + d.estMult))
      else chargedAmount }

/-- The non-`Completed` branch of `generateAppointmentData`: the same row
shape with every financial / payment / claim / treatment-plan field at its
zero or blank sentinel. -/
def mkNonCompletedRecord (visitId procId : String) (patient : Patient)
    (status : String) (visitDateStr : String) : AppointmentRecord :=
  { Visit_ID := visitId
    Procedure_ID := procId
    Patient_ID := patient.patient_id
    Date_of_Service := visitDateStr
    Appointment_Status := status
    Procedure_Code := ""
    Procedure_Description := ""
    Procedure_Category := ""
    Tooth_Number := ""
    Charged_Amount := 0
    Insurance_Provider := patient.insurance_provider
    Insurance_Covered_Amount := 0
    Patient_Responsibility := 0
    Discount_Applied := 0
    Out_of_Pocket := 0
    Amount_Paid := 0
    Payment_Method := ""
    Payment_Status := ""
    Is_New_Patient := patient.registration_date == visitDateStr
    Insurance_Claim_Status := ""
    Insurance_Claim_Submission_Date := ""
    Insurance_Claim_Payment_Date := ""
    Treatment_Plan_ID := ""
    Treatment_Plan_Creation_Date := ""
    Treatment_Plan_Completion_Date := ""
    Treatment_Plan_Completion_Rate := 0
    Estimated_Total_Cost := 0 }

/-- C6. For every procedure record of a `Completed` visit,
`Insurance_Covered_Amount + Patient_Responsibility = Charged_Amount` and
`Discount_Applied + Out_of_Pocket = Patient_Responsibility`, for all
patients, procedures and random draws. -/
theorem completed_record_financial_reconciliation
    (visitId procId : String) (patient : Patient) (proc : Procedure)
    (description visitDateStr : String) (d : ApptDraws) :
    (mkCompletedRecord visitId procId patient proc description visitDateStr d).Insurance_Covered_Amount +
      (mkCompletedRecord visitId procId patient proc description visitDateStr d).Patient_Responsibility =
      (mkCompletedRecord visitId procId patient proc description visitDateStr d).Charged_Amount ∧
    (mkCompletedRecord visitId procId patient proc description visitDateStr d).Discount_Applied +
      (mkCompletedRecord visitId procId patient proc description visitDateStr d).Out_of_Pocket =
      (mkCompletedRecord visitId procId patient proc description visitDateStr d).Patient_Responsibility := by
  constructor <;> simp [mkCompletedRecord]

/-- C7. Every row of a non-`Completed` visit has `Charged_Amount = 0`
and every financial, payment, insurance-claim and treatment-plan field at
its zero or blank sentinel, regardless of every other input. -/
theorem non_completed_record_all_sentinels
    (visitId procId : String) (patient : Patient) (status visitDateStr : String) :
    (mkNonCompletedRecord visitId procId patient status visitDateStr).Charged_Amount = 0 ∧
    (mkNonCompletedRecord visitId procId patient status visitDateStr).Procedure_Code = "" ∧
    (mkNonCompletedRecord visitId procId patient status visitDateStr).Procedure_Description = "" ∧
    (mkNonCompletedRecord visitId procId patient status visitDateStr).Procedure_Category = "" ∧
    (mkNonCompletedRecord visitId procId patient status visitDateStr).Tooth_Number = "" ∧
    (mkNonCompletedRecord visitId procId patient status visitDateStr).Insurance_Covered_Amount = 0 ∧
    (mkNonCompletedRecord visitId procId patient status visitDateStr).Patient_Responsibility = 0 ∧
    (mkNonCompletedRecord visitId procId patient status visitDateStr).Discount_Applied = 0 ∧
    (mkNonCompletedRecord visitId procId patient status visitDateStr).Out_of_Pocket = 0 ∧
    (mkNonCompletedRecord visitId procId patient status visitDateStr).Amount_Paid = 0 ∧
    (mkNonCompletedRecord visitId procId patient status visitDateStr).Payment_Method = "" ∧
    (mkNonCompletedRecord visitId procId patient status visitDateStr).Payment_Status = "" ∧
    (mkNonCompletedRecord visitId procId patient status visitDateStr).Insurance_Claim_Status = "" ∧
    (mkNonCompletedRecord visitId procId patient status visitDateStr).Insurance_Claim_Submission_Date = "" ∧
    (mkNonCompletedRecord visitId procId patient status visitDateStr).Insurance_Claim_Payment_Date = "" ∧
    (mkNonCompletedRecord visitId procId patient status visitDateStr).Treatment_Plan_ID = "" ∧
    (mkNonCompletedRecord visitId procId patient status visitDateStr).Treatment_Plan_Creation_Date = "" ∧
    (mkNonCompletedRecord visitId procId patient status visitDateStr).Treatment_Plan_Completion_Date = "" ∧
    (mkNonCompletedRecord visitId procId patient status visitDateStr).Treatment_Plan_Completion_Rate = 0 ∧
    (mkNonCompletedRecord visitId procId patient status visitDateStr).Estimated_Total_Cost = 0 := by
  repeat' constructor

/-- C8. A reimbursement-rate lookup that misses the registry falls back to
the default base rate `0.75` (no error is raised: the lookup is total);
a lookup that hits the registry returns that plan's
`avg_reimbursement_rate`. -/
theorem reimbursement_lookup_fallback (planName : String) :
    ((∀ p ∈ insuranceProviders, p.name ≠ planName) →
      baseReimbursementRate planName = 75/100) ∧
    (∀ p ∈ insuranceProviders, p.name = planName →
      baseReimbursementRate planName = p.avg_reimbursement_rate) := by
  constructor
  · intro hmiss
    have hnone : insuranceProviders.find? (fun p => p.name == planName) = none := by
      apply List.find?_eq_none.mpr
      intro p hp
      simpa using hmiss p hp
    simp [baseReimbursementRate, hnone]
  · intro p hp heq
    subst heq
    fin_cases hp <;> rfl

/-- Name of a plan absent from the registry, used to witness the fallback. -/
def unknownPlanName : String := "Blue Cross"

/-- The registry's second plan, used to witness the lookup-hit case. -/
def cignaPlan : InsurancePlan := ⟨"Cigna Dental", 80/100⟩

/-- Witness for C8: the unknown plan "Blue Cross" resolves to the 0.75
fallback, and the registered plan "Cigna Dental" resolves to its 0.80 rate. -/
theorem reimbursement_lookup_fallback_witness :
    baseReimbursementRate unknownPlanName = 75/100 ∧
    baseReimbursementRate cignaPlan.name = 80/100 := by
  constructor
  · exact (reimbursement_lookup_fallback unknownPlanName).1 (by decide)
  · exact (reimbursement_lookup_fallback cignaPlan.name).2 cignaPlan
      (by simp [insuranceProviders, cignaPlan]) rfl

/-- C10. In both the `Completed` and the non-`Completed` branch,
`Is_New_Patient` is true exactly when the formatted `Date_of_Service`
equals the patient's `registration_date`; it is computed per row from
those two strings only, so it does not mark a patient's chronologically
first generated visit. -/
theorem is_new_patient_iff_regdate_eq_service_date
    (visitId procId : String) (patient : Patient) (proc : Procedure)
    (description status visitDateStr : String) (d : ApptDraws) :
    ((mkCompletedRecord visitId procId patient proc description visitDateStr d).Is_New_Patient = true ↔
      (mkCompletedRecord visitId procId patient proc description visitDateStr d).Date_of_Service =
        patient.registration_date) ∧
    ((mkNonCompletedRecord visitId procId patient status visitDateStr).Is_New_Patient = true ↔
      (mkNonCompletedRecord visitId procId patient status visitDateStr).Date_of_Service =
        patient.registration_date) := by
  have h1 : (mkCompletedRecord visitId procId patient proc description visitDateStr d).Is_New_Patient =
      (patient.registration_date == visitDateStr) := rfl
  have h2 : (mkCompletedRecord visitId procId patient proc description visitDateStr d).Date_of_Service =
      visitDateStr := rfl
  have h3 : (mkNonCompletedRecord visitId procId patient status visitDateStr).Is_New_Patient =
      (patient.registration_date == visitDateStr) := rfl
  have h4 : (mkNonCompletedRecord visitId procId patient status visitDateStr).Date_of_Service =
      visitDateStr := rfl
  rw [h1, h2, h3, h4]
  simp only [beq_iff_eq]
  exact ⟨eq_comm, eq_comm⟩

/-! ### C2: effective coverage rate of insured completed procedures -/

theorem procedures_fee_ge (p : Procedure) (hp : p ∈ procedures) : 35 ≤ p.avg_fee := by
  fin_cases hp <;> decide

theorem chargedAmount_ge (fee : ℤ) (u : ℚ) (hfee : 35 ≤ fee) (h0 : 0 ≤ u) :
    32 ≤ chargedAmountOf fee u := by
  have hval : (315 : ℚ) / 10 ≤ (fee : ℚ) * (9/10 + u * (2/10)) := by
    have hfee' : (35 : ℚ) ≤ (fee : ℚ) := by exact_mod_cast hfee
    nlinarith
  have hlb := lt_jsRound ((fee : ℚ) * (9/10 + u * (2/10)))
  have h31 : (31 : ℚ) < (chargedAmountOf fee u : ℚ) := by
    unfold chargedAmountOf
    linarith
  have : (31 : ℤ) < chargedAmountOf fee u := by exact_mod_cast h31
  omega

theorem insured_base_rate_bounds (planName : String)
    (h : planName ∈ insuredPlanNames) :
    3/4 ≤ baseReimbursementRate planName ∧ baseReimbursementRate planName ≤ 17/20 := by
  have h' : planName ∈ ["Delta Dental", "Cigna Dental", "Aetna", "MetLife", "Guardian"] := h
  have e1 : baseReimbursementRate ("Delta Dental") = 85/100 := rfl
  have e2 : baseReimbursementRate ("Cigna Dental") = 80/100 := rfl
  have e3 : baseReimbursementRate ("Aetna") = 75/100 := rfl
  have e4 : baseReimbursementRate ("MetLife") = 82/100 := rfl
  have e5 : baseReimbursementRate ("Guardian") = 78/100 := rfl
  simp only [List.mem_cons, List.not_mem_nil, or_false] at h'
  rcases h' with h' | h' | h' | h' | h' <;> subst h' <;>
    refine ⟨?_, ?_⟩ <;> simp only [e1, e2, e3, e4, e5] <;> norm_num

theorem coverageRate_bounds (planName : String) (u : ℚ)
    (h : planName ∈ insuredPlanNames) (h0 : 0 ≤ u) (h1 : u < 1) :
    27/40 ≤ coverageRate planName u ∧ coverageRate planName u < 187/200 := by
  obtain ⟨hb0, hb1⟩ := insured_base_rate_bounds planName h
  set b := baseReimbursementRate planName with hb
  have hx0 : 27/40 ≤ b * (9/10 + u * (2/10)) := by nlinarith
  have hx1 : b * (9/10 + u * (2/10)) < 187/200 := by nlinarith
  have hmin0 : 27/40 ≤ min (95/100 : ℚ) (b * (9/10 + u * (2/10))) := by
    apply le_min (by norm_num) hx0
  have hmin1 : min (95/100 : ℚ) (b * (9/10 + u * (2/10))) < 187/200 :=
    lt_of_le_of_lt (min_le_right _ _) hx1
  unfold coverageRate
  rw [← hb, max_eq_right (le_trans (by norm_num) hmin0)]
  exact ⟨hmin0, hmin1⟩

/-- Core numeric fact behind C2: a rounded share of a charge at an
effective rate in `[0.675, 0.935)` stays within the claimed
`[0.5, 0.95]` band for every charge of at least 32. -/
theorem rounded_share_ratio_bounds (c : ℤ) (r : ℚ)
    (hc : 32 ≤ c) (hr0 : 27/40 ≤ r) (hr1 : r < 187/200) :
    1/2 ≤ (jsRound ((c : ℚ) * r) : ℚ) / (c : ℚ) ∧
    (jsRound ((c : ℚ) * r) : ℚ) / (c : ℚ) ≤ 19/20 := by
  have hcq : (32 : ℚ) ≤ (c : ℚ) := by exact_mod_cast hc
  have hcpos : (0 : ℚ) < (c : ℚ) := by linarith
  have hup := jsRound_le ((c : ℚ) * r)
  have hlo := lt_jsRound ((c : ℚ) * r)
  have hcr0 : 27/40 * (c : ℚ) ≤ (c : ℚ) * r := by nlinarith
  have hcr1 : (c : ℚ) * r < 187/200 * (c : ℚ) := by nlinarith
  constructor
  · rw [le_div_iff₀ hcpos]
    have : 1/2 * (c : ℚ) < (jsRound ((c : ℚ) * r) : ℚ) := by linarith
    linarith
  · rw [div_le_iff₀ hcpos]
    have hcases : c = 32 ∨ c = 33 ∨ 34 ≤ c := by omega
    rcases hcases with h32 | h33 | h34
    · subst h32
      have hk31 : (jsRound ((32 : ℤ) * r : ℚ) : ℚ) < 31 := by
        push_cast at hup hcr1 ⊢
        linarith
      have hkZ : jsRound ((32 : ℤ) * r : ℚ) < 31 := by exact_mod_cast hk31
      have hkZ' : jsRound ((32 : ℤ) * r : ℚ) ≤ 30 := by omega
      have hkQ : (jsRound ((32 : ℤ) * r : ℚ) : ℚ) ≤ 30 := by exact_mod_cast hkZ'
      push_cast at hkQ ⊢
      linarith
    · subst h33
      have hk32 : (jsRound ((33 : ℤ) * r : ℚ) : ℚ) < 32 := by
        push_cast at hup hcr1 ⊢
        linarith
      have hkZ : jsRound ((33 : ℤ) * r : ℚ) < 32 := by exact_mod_cast hk32
      have hkZ' : jsRound ((33 : ℤ) * r : ℚ) ≤ 31 := by omega
      have hkQ : (jsRound ((33 : ℤ) * r : ℚ) : ℚ) ≤ 31 := by exact_mod_cast hkZ'
      push_cast at hkQ ⊢
      linarith
    · have h34q : (34 : ℚ) ≤ (c : ℚ) := by exact_mod_cast h34
      linarith

/-- C2. For every completed procedure of an insured patient, the effective
coverage rate `Insurance_Covered_Amount / Charged_Amount` lies in
`[0.5, 0.95]`, for all values of the fee and rate perturbation draws. -/
theorem insured_coverage_ratio_in_band
    (visitId procId : String) (patient : Patient) (proc : Procedure)
    (description visitDateStr : String) (d : ApptDraws)
    (hproc : proc ∈ procedures)
    (hins : patient.insurance_provider ∈ insuredPlanNames)
    (hu0 : 0 ≤ d.rateU) (hu1 : d.rateU < 1)
    (hv0 : 0 ≤ d.feeU) (_hv1 : d.feeU < 1) :
    1/2 ≤ ((mkCompletedRecord visitId procId patient proc description visitDateStr d).Insurance_Covered_Amount : ℚ) /
        ((mkCompletedRecord visitId procId patient proc description visitDateStr d).Charged_Amount : ℚ) ∧
    ((mkCompletedRecord visitId procId patient proc description visitDateStr d).Insurance_Covered_Amount : ℚ) /
        ((mkCompletedRecord visitId procId patient proc description visitDateStr d).Charged_Amount : ℚ) ≤ 19/20 := by
  have hno : patient.insurance_provider ≠ "No Insurance" := by
    have h' : patient.insurance_provider ∈
        ["Delta Dental", "Cigna Dental", "Aetna", "MetLife", "Guardian"] := hins
    simp only [List.mem_cons, List.not_mem_nil, or_false] at h'
    rcases h' with h' | h' | h' | h' | h' <;> rw [h'] <;> decide
  have hC : (mkCompletedRecord visitId procId patient proc description visitDateStr d).Charged_Amount =
      chargedAmountOf proc.avg_fee d.feeU := rfl
  have hI : (mkCompletedRecord visitId procId patient proc description visitDateStr d).Insurance_Covered_Amount =
      (if patient.insurance_provider ≠ "No Insurance" then
        jsRound ((chargedAmountOf proc.avg_fee d.feeU : ℚ) *
          coverageRate patient.insurance_provider d.rateU)
      else 0) := rfl
  rw [hC, hI, if_pos hno]
  have hc32 := chargedAmount_ge proc.avg_fee d.feeU (procedures_fee_ge proc hproc) hv0
  obtain ⟨hr0, hr1⟩ := coverageRate_bounds patient.insurance_provider d.rateU hins hu0 hu1
  exact rounded_share_ratio_bounds (chargedAmountOf proc.avg_fee d.feeU)
    (coverageRate patient.insurance_provider d.rateU) hc32 hr0 hr1

/-- Concrete patient used by witnesses: insured with Delta Dental. -/
def witPatient : Patient :=
  { patient_id := "PAT0001"
    name := "James Smith"
    registration_date := "2020-05-17"
    insurance_provider := "Delta Dental" }

/-- Concrete draw vector used by witnesses. -/
def witDraws : ApptDraws :=
  { feeU := 0
    rateU := 0
    hasDiscount := false
    discountN := 1
    isPaid := true
    paymentMethod := "Cash"
    toothNumber := "3"
    hasTreatmentPlan := false
    tpId := ""
    tpCreationDate := ""
    tpIsCompleted := false
    tpCompletionDate := ""
    tpPartialRate := 0
    estMult := 0
    claimIsPaid := true
    claimPendingCoin := false
    claimPaymentDate := "2021-07-01" }

/-- Concrete procedure used by witnesses (`D0120`, fee 60). -/
def witProc : Procedure := ⟨"D0120", "Diagnostic", 60⟩

/-- Visit id / date strings used by witnesses. -/
def witVisitDate : String := "2021-06-15"

/-- Witness for C2 at a concrete insured completed procedure. -/
theorem insured_coverage_ratio_in_band_witness :
    1/2 ≤ ((mkCompletedRecord ("V000001") ("PROC000001") witPatient witProc ("Periodic Oral Evaluation") witVisitDate witDraws).Insurance_Covered_Amount : ℚ) /
        ((mkCompletedRecord ("V000001") ("PROC000001") witPatient witProc ("Periodic Oral Evaluation") witVisitDate witDraws).Charged_Amount : ℚ) ∧
    ((mkCompletedRecord ("V000001") ("PROC000001") witPatient witProc ("Periodic Oral Evaluation") witVisitDate witDraws).Insurance_Covered_Amount : ℚ) /
        ((mkCompletedRecord ("V000001") ("PROC000001") witPatient witProc ("Periodic Oral Evaluation") witVisitDate witDraws).Charged_Amount : ℚ) ≤ 19/20 :=
  insured_coverage_ratio_in_band ("V000001") ("PROC000001") witPatient witProc
    ("Periodic Oral Evaluation") witVisitDate witDraws
    (by decide) (by decide) le_rfl (by norm_num [witDraws]) le_rfl (by norm_num [witDraws])

/-! ### C5: visit date bounds -/

/-- `START_DATE = new Date(2020, 0, 1)` as a millisecond timestamp. -/
def START_TIME : ℚ := 1577836800000

/-- `END_DATE = new Date(2025, 3, 1)` as a millisecond timestamp. -/
def END_TIME : ℚ := 1743465600000

/-- `randomDate(start, end) = start + Math.random() * (end - start)`. -/
def randomDate (s e u : ℚ) : ℚ := s + u * (e - s)

/-- Visit timestamp of `generateAppointmentData`:
`randomDate(regDate > START_DATE ? regDate : START_DATE, END_DATE)`.
(`max` is exactly the JS conditional.) -/
def visitTime (regTime u : ℚ) : ℚ := randomDate (max regTime START_TIME) END_TIME u

/-- C5. Every generated visit date lies at or after the patient's
registration date, at or after the global start date, and at or before
the global end date. The hypothesis `regTime ≤ END_TIME` holds for every
generated patient: registration dates range over 2018-01-01..2024-12-28. -/
theorem visit_time_bounds (regTime u : ℚ)
    (hreg : regTime ≤ END_TIME) (h0 : 0 ≤ u) (h1 : u < 1) :
    regTime ≤ visitTime regTime u ∧ START_TIME ≤ visitTime regTime u ∧
    visitTime regTime u ≤ END_TIME := by
  have hSE : START_TIME ≤ END_TIME := by norm_num [START_TIME, END_TIME]
  have hsE : max regTime START_TIME ≤ END_TIME := max_le hreg hSE
  have hgap : (0 : ℚ) ≤ END_TIME - max regTime START_TIME := by linarith
  have hge : max regTime START_TIME ≤ visitTime regTime u := by
    have := mul_nonneg h0 hgap
    unfold visitTime randomDate
    linarith
  have hle : visitTime regTime u ≤ END_TIME := by
    have := mul_le_of_le_one_left hgap h1.le
    unfold visitTime randomDate
    linarith
  exact ⟨le_trans (le_max_left _ _) hge, le_trans (le_max_right _ _) hge, hle⟩

/-- Witness for C5 at a concrete registration timestamp and draw. -/
theorem visit_time_bounds_witness :
    (1600000000000 : ℚ) ≤ visitTime 1600000000000 (1/2) ∧
    START_TIME ≤ visitTime 1600000000000 (1/2) ∧
    visitTime 1600000000000 (1/2) ≤ END_TIME :=
  visit_time_bounds 1600000000000 (1/2)
    (by norm_num [END_TIME]) (by norm_num) (by norm_num)

/-! ## Embedding of `generate-fin-data.js` -/

/-- A practice location (fields used by the financial generator). -/
structure Location where
  id : String
  opened_year : ℤ
  opened_month : ℤ
  opened_day : ℤ
  square_footage : ℤ
  monthly_rent : ℤ
deriving DecidableEq

/-- `LOC001`, Downtown Dental (opened 2015-03-15). -/
def loc001 : Location := ⟨"LOC001", 2015, 3, 15, 3200, 12800⟩

/-- `LOC002`, Westside Smile Center (opened 2017-06-22). -/
def loc002 : Location := ⟨"LOC002", 2017, 6, 22, 2800, 9800⟩

/-- `LOC003`, East Valley Dental Care (opened 2019-11-10). -/
def loc003 : Location := ⟨"LOC003", 2019, 11, 10, 2400, 7200⟩

/-- The `locations` array of `generate-fin-data.js`. -/
def locations : List Location := [loc001, loc002, loc003]

/-- Lower end of the per-location `randomBetween` base-revenue band. -/
def baseRevenueLo (id : String) : ℤ :=
  if id = "LOC001" then 180000 else if id = "LOC002" then 140000 else 100000

/-- Upper end of the per-location `randomBetween` base-revenue band. -/
def baseRevenueHi (id : String) : ℤ :=
  if id = "LOC001" then 220000 else if id = "LOC002" then 170000 else 130000

/-- Lower end of `getSeasonalFactor`'s `randomFloatBetween` band.
JS months are 0-based (11, 0, 1 = Dec, Jan, Feb); here months are 1-based. -/
def seasonalLo (month : ℤ) : ℚ :=
  if month = 12 ∨ month = 1 ∨ month = 2 then 85/100
  else if 3 ≤ month ∧ month ≤ 5 then 105/100
  else if 6 ≤ month ∧ month ≤ 8 then 9/10
  else 95/100

/-- Upper end of `getSeasonalFactor`'s `randomFloatBetween` band. -/
def seasonalHi (month : ℤ) : ℚ :=
  if month = 12 ∨ month = 1 ∨ month = 2 then 95/100
  else if 3 ≤ month ∧ month ≤ 5 then 115/100
  else if 6 ≤ month ∧ month ≤ 8 then 11/10
  else 105/100

/-- `yearsSinceOpening = (year - openYear) + (month - openMonth)/12`
(the JS uses 0-based `getMonth()` on both dates, so the difference is the
same with 1-based months). -/
def yearsSinceOpening (year month : ℤ) (loc : Location) : ℚ :=
  ((year - loc.opened_year : ℤ) : ℚ) + ((month - loc.opened_month : ℤ) : ℚ) / 12

/-- `getGrowthFactor`: piecewise growth curve over years since opening,
with the single `randomFloatBetween(0.9, 1.1)` draw `m`. -/
def getGrowthFactor (year month : ℤ) (loc : Location) (m : ℚ) : ℚ :=
  if yearsSinceOpening year month loc < 2 then
    1 + (yearsSinceOpening year month loc * (2/10)) * m
  else if yearsSinceOpening year month loc < 4 then
    1 + ((4/10) + ((yearsSinceOpening year month loc - 2) * (12/100)) * m)
  else
    1 + ((64/100) + ((yearsSinceOpening year month loc - 4) * (55/1000)) * m)

/-- The random draws consumed by one `generateMonthlyFinancialData` call
that the claims depend on (each `randomBetween` / `randomFloatBetween` /
`Math.random()` value becomes a field: the 10 service-category weight
perturbations, the 7 payor weight perturbations, the 15 expense draws,
and the scalar draws). -/
structure MonthlyDraws where
  baseRevenue : ℤ
  seasonalFactor : ℚ
  growthMult : ℚ
  pDiagnostic : ℚ
  pPreventive : ℚ
  pRestorative : ℚ
  pEndodontic : ℚ
  pPeriodontic : ℚ
  pProsthodontic : ℚ
  pOralSurgery : ℚ
  pOrthodontic : ℚ
  pImplant : ℚ
  pAdjunctive : ℚ
  qDeltaDental : ℚ
  qCignaDental : ℚ
  qAetna : ℚ
  qMetLife : ℚ
  qGuardian : ℚ
  qUnitedHealthcare : ℚ
  qSelfPay : ℚ
  eLaborClinical : ℚ
  eLaborAdmin : ℚ
  eSuppliesClinical : ℚ
  eSuppliesOffice : ℚ
  eRentFactor : ℚ
  eUtilities : ℚ
  eEquipment : ℚ
  eMarketing : ℚ
  eInsurance : ℚ
  eProfessionalFees : ℚ
  eContinuingEducation : ℚ
  eLabFees : ℚ
  eSoftwareIT : ℚ
  eTravel : ℚ
  eMisc : ℚ
  procValue : ℤ
  presentRate : ℚ
  acceptRate : ℚ
  completeRate : ℚ
deriving DecidableEq

/-- `totalRevenue = Math.round(baseRevenue * seasonalFactor * growthFactor)`. -/
def totalRevenueOf (year month : ℤ) (loc : Location) (d : MonthlyDraws) : ℤ :=
  jsRound ((d.baseRevenue : ℚ) * d.seasonalFactor * getGrowthFactor year month loc d.growthMult)

/-- Sum of the 10 perturbed category weights (`totalWeight` in the JS). -/
def catWeightSum (d : MonthlyDraws) : ℚ :=
  (10/100) * d.pDiagnostic + (20/100) * d.pPreventive + (25/100) * d.pRestorative +
  (8/100) * d.pEndodontic + (7/100) * d.pPeriodontic + (10/100) * d.pProsthodontic +
  (5/100) * d.pOralSurgery + (8/100) * d.pOrthodontic + (5/100) * d.pImplant +
  (2/100) * d.pAdjunctive

/-- One normalized, rounded category amount:
`Math.round((weight / totalWeight) * totalRevenue)`. -/
def catAmount (w : ℚ) (d : MonthlyDraws) (T : ℤ) : ℤ :=
  jsRound (w / catWeightSum d * (T : ℚ))

/-- Sum of the 7 perturbed payor weights (`totalPayorWeight` in the JS;
each provider has an entry in `payorWeights`, so the `|| 0.02` default is
never taken). -/
def payorWeightSum (d : MonthlyDraws) : ℚ :=
  (30/100) * d.qDeltaDental + (15/100) * d.qCignaDental + (12/100) * d.qAetna +
  (10/100) * d.qMetLife + (8/100) * d.qGuardian + (5/100) * d.qUnitedHealthcare +
  (20/100) * d.qSelfPay

/-- One normalized, rounded payor-mix amount. -/
def payAmount (w : ℚ) (d : MonthlyDraws) (T : ℤ) : ℤ :=
  jsRound (w / payorWeightSum d * (T : ℚ))

/-- `totalExpenses`: sum of the 15 expense categories, each
`Math.round(totalRevenue * draw)` except rent,
`Math.round(monthly_rent * draw)`. -/
def totalExpensesOf (year month : ℤ) (loc : Location) (d : MonthlyDraws) : ℤ :=
  jsRound ((totalRevenueOf year month loc d : ℚ) * d.eLaborClinical) +
  jsRound ((totalRevenueOf year month loc d : ℚ) * d.eLaborAdmin) +
  jsRound ((totalRevenueOf year month loc d : ℚ) * d.eSuppliesClinical) +
  jsRound ((totalRevenueOf year month loc d : ℚ) * d.eSuppliesOffice) +
  jsRound ((loc.monthly_rent : ℚ) * d.eRentFactor) +
  jsRound ((totalRevenueOf year month loc d : ℚ) * d.eUtilities) +
  jsRound ((totalRevenueOf year month loc d : ℚ) * d.eEquipment) +
  jsRound ((totalRevenueOf year month loc d : ℚ) * d.eMarketing) +
  jsRound ((totalRevenueOf year month loc d : ℚ) * d.eInsurance) +
  jsRound ((totalRevenueOf year month loc d : ℚ) * d.eProfessionalFees) +
  jsRound ((totalRevenueOf year month loc d : ℚ) * d.eContinuingEducation) +
  jsRound ((totalRevenueOf year month loc d : ℚ) * d.eLabFees) +
  jsRound ((totalRevenueOf year month loc d : ℚ) * d.eSoftwareIT) +
  jsRound ((totalRevenueOf year month loc d : ℚ) * d.eTravel) +
  jsRound ((totalRevenueOf year month loc d : ℚ) * d.eMisc)

/-- `numberOfProcedures = Math.round(totalRevenue / randomBetween(200, 300))`. -/
def numberOfProceduresOf (year month : ℤ) (loc : Location) (d : MonthlyDraws) : ℤ :=
  jsRound ((totalRevenueOf year month loc d : ℚ) / (d.procValue : ℚ))

/-- `patientVisits = Math.round(numberOfProcedures * 0.7)`. -/
def patientVisitsOf (year month : ℤ) (loc : Location) (d : MonthlyDraws) : ℤ :=
  jsRound ((numberOfProceduresOf year month loc d : ℚ) * (7/10))

/-- `treatmentPlansPresented = Math.round(patientVisits * randomFloatBetween(0.3, 0.5))`. -/
def plansPresentedOf (year month : ℤ) (loc : Location) (d : MonthlyDraws) : ℤ :=
  jsRound ((patientVisitsOf year month loc d : ℚ) * d.presentRate)

/-- `treatmentPlansAccepted = Math.round(treatmentPlansPresented * randomFloatBetween(0.6, 0.8))`. -/
def plansAcceptedOf (year month : ℤ) (loc : Location) (d : MonthlyDraws) : ℤ :=
  jsRound ((plansPresentedOf year month loc d : ℚ) * d.acceptRate)

/-- `treatmentPlansCompleted = Math.round(treatmentPlansAccepted * randomFloatBetween(0.7, 0.9))`. -/
def plansCompletedOf (year month : ℤ) (loc : Location) (d : MonthlyDraws) : ℤ :=
  jsRound ((plansAcceptedOf year month loc d : ℚ) * d.completeRate)

/-- 2-digit month padding (`String(month).padStart(2, '0')` for months 1..12). -/
def pad2 (m : ℤ) : String := if m < 10 then "0" ++ toString m else toString m

/-- The `Period` field, `year + "-" + padded month`. -/
def periodString (y m : ℤ) : String := toString y ++ "-" ++ pad2 m

/-- A monthly financial record (fields the claims mention). -/
structure MonthlyFinancialRecord where
  Location_ID : String
  Year : ℤ
  Month : ℤ
  Period : String
  Total_Revenue : ℤ
  Revenue_Diagnostic : ℤ
  Revenue_Preventive : ℤ
  Revenue_Restorative : ℤ
  Revenue_Endodontic : ℤ
  Revenue_Periodontic : ℤ
  Revenue_Prosthodontic : ℤ
  Revenue_Oral_Surgery : ℤ
  Revenue_Orthodontic : ℤ
  Revenue_Implant : ℤ
  Revenue_Adjunctive : ℤ
  Total_Expenses : ℤ
  EBITDA : ℤ
  Payor_Delta_Dental : ℤ
  Payor_Cigna_Dental : ℤ
  Payor_Aetna : ℤ
  Payor_MetLife : ℤ
  Payor_Guardian : ℤ
  Payor_United_Healthcare : ℤ
  Payor_Self_Pay : ℤ
  Total_Patient_Visits : ℤ
  Treatment_Plans_Presented : ℤ
  Treatment_Plans_Accepted : ℤ
  Treatment_Plans_Completed : ℤ
  Revenue_MoM_Change : ℚ
  Revenue_YoY_Change : ℚ
  EBITDA_MoM_Change : ℚ
  EBITDA_YoY_Change : ℚ
deriving DecidableEq

/-- `generateMonthlyFinancialData(date, location)` with all random draws
explicit. The four comparative fields start at the placeholder 0. -/
def generateMonthlyFinancialData (year month : ℤ) (loc : Location)
    (d : MonthlyDraws) : MonthlyFinancialRecord :=
  { Location_ID := loc.id
    Year := year
    Month := month
    Period := periodString year month
    Total_Revenue := totalRevenueOf year month loc d
    Revenue_Diagnostic := catAmount ((10/100) * d.pDiagnostic) d (totalRevenueOf year month loc d)
    Revenue_Preventive := catAmount ((20/100) * d.pPreventive) d (totalRevenueOf year month loc d)
    Revenue_Restorative := catAmount ((25/100) * d.pRestorative) d (totalRevenueOf year month loc d)
    Revenue_Endodontic := catAmount ((8/100) * d.pEndodontic) d (totalRevenueOf year month loc d)
    Revenue_Periodontic := catAmount ((7/100) * d.pPeriodontic) d (totalRevenueOf year month loc d)
    Revenue_Prosthodontic := catAmount ((10/100) * d.pProsthodontic) d (totalRevenueOf year month loc d)
    Revenue_Oral_Surgery := catAmount ((5/100) * d.pOralSurgery) d (totalRevenueOf year month loc d)
    Revenue_Orthodontic := catAmount ((8/100) * d.pOrthodontic) d (totalRevenueOf year month loc d)
    Revenue_Implant := catAmount ((5/100) * d.pImplant) d (totalRevenueOf year month loc d)
    Revenue_Adjunctive := catAmount ((2/100) * d.pAdjunctive) d (totalRevenueOf year month loc d)
    Total_Expenses := totalExpensesOf year month loc d
    EBITDA := totalRevenueOf year month loc d - totalExpensesOf year month loc d
    Payor_Delta_Dental := payAmount ((30/100) * d.qDeltaDental) d (totalRevenueOf year month loc d)
    Payor_Cigna_Dental := payAmount ((15/100) * d.qCignaDental) d (totalRevenueOf year month loc d)
    Payor_Aetna := payAmount ((12/100) * d.qAetna) d (totalRevenueOf year month loc d)
    Payor_MetLife := payAmount ((10/100) * d.qMetLife) d (totalRevenueOf year month loc d)
    Payor_Guardian := payAmount ((8/100) * d.qGuardian) d (totalRevenueOf year month loc d)
    Payor_United_Healthcare := payAmount ((5/100) * d.qUnitedHealthcare) d (totalRevenueOf year month loc d)
    Payor_Self_Pay := payAmount ((20/100) * d.qSelfPay) d (totalRevenueOf year month loc d)
    Total_Patient_Visits := patientVisitsOf year month loc d
    Treatment_Plans_Presented := plansPresentedOf year month loc d
    Treatment_Plans_Accepted := plansAcceptedOf year month loc d
    Treatment_Plans_Completed := plansCompletedOf year month loc d
    Revenue_MoM_Change := 0
    Revenue_YoY_Change := 0
    EBITDA_MoM_Change := 0
    EBITDA_YoY_Change := 0 }

/-- Ranges of the random draws, as produced by `randomBetween` /
`randomFloatBetween` (2-decimal endpoints are preserved by the
2-decimal rounding inside `randomFloatBetween`). -/
structure ValidDraws (loc : Location) (month : ℤ) (d : MonthlyDraws) : Prop where
  base_lo : baseRevenueLo loc.id ≤ d.baseRevenue
  base_hi : d.baseRevenue ≤ baseRevenueHi loc.id
  seasonal_lo : seasonalLo month ≤ d.seasonalFactor
  seasonal_hi : d.seasonalFactor ≤ seasonalHi month
  growth_lo : 9/10 ≤ d.growthMult
  growth_hi : d.growthMult ≤ 11/10
  pDiagnostic_mem : 85/100 ≤ d.pDiagnostic ∧ d.pDiagnostic ≤ 115/100
  pPreventive_mem : 85/100 ≤ d.pPreventive ∧ d.pPreventive ≤ 115/100
  pRestorative_mem : 85/100 ≤ d.pRestorative ∧ d.pRestorative ≤ 115/100
  pEndodontic_mem : 85/100 ≤ d.pEndodontic ∧ d.pEndodontic ≤ 115/100
  pPeriodontic_mem : 85/100 ≤ d.pPeriodontic ∧ d.pPeriodontic ≤ 115/100
  pProsthodontic_mem : 85/100 ≤ d.pProsthodontic ∧ d.pProsthodontic ≤ 115/100
  pOralSurgery_mem : 85/100 ≤ d.pOralSurgery ∧ d.pOralSurgery ≤ 115/100
  pOrthodontic_mem : 85/100 ≤ d.pOrthodontic ∧ d.pOrthodontic ≤ 115/100
  pImplant_mem : 85/100 ≤ d.pImplant ∧ d.pImplant ≤ 115/100
  pAdjunctive_mem : 85/100 ≤ d.pAdjunctive ∧ d.pAdjunctive ≤ 115/100
  qDeltaDental_mem : 85/100 ≤ d.qDeltaDental ∧ d.qDeltaDental ≤ 115/100
  qCignaDental_mem : 85/100 ≤ d.qCignaDental ∧ d.qCignaDental ≤ 115/100
  qAetna_mem : 85/100 ≤ d.qAetna ∧ d.qAetna ≤ 115/100
  qMetLife_mem : 85/100 ≤ d.qMetLife ∧ d.qMetLife ≤ 115/100
  qGuardian_mem : 85/100 ≤ d.qGuardian ∧ d.qGuardian ≤ 115/100
  qUnitedHealthcare_mem : 85/100 ≤ d.qUnitedHealthcare ∧ d.qUnitedHealthcare ≤ 115/100
  qSelfPay_mem : 85/100 ≤ d.qSelfPay ∧ d.qSelfPay ≤ 115/100
  proc_lo : 200 ≤ d.procValue
  proc_hi : d.procValue ≤ 300
  present_lo : 3/10 ≤ d.presentRate
  present_hi : d.presentRate ≤ 5/10
  accept_lo : 6/10 ≤ d.acceptRate
  accept_hi : d.acceptRate ≤ 8/10
  complete_lo : 7/10 ≤ d.completeRate
  complete_hi : d.completeRate ≤ 9/10

/-- Sum of the 10 revenue-by-category fields of a record. -/
def catSum (r : MonthlyFinancialRecord) : ℤ :=
  r.Revenue_Diagnostic + r.Revenue_Preventive + r.Revenue_Restorative +
  r.Revenue_Endodontic + r.Revenue_Periodontic + r.Revenue_Prosthodontic +
  r.Revenue_Oral_Surgery + r.Revenue_Orthodontic + r.Revenue_Implant +
  r.Revenue_Adjunctive

/-- Sum of the 7 payor-mix fields of a record. -/
def paySum (r : MonthlyFinancialRecord) : ℤ :=
  r.Payor_Delta_Dental + r.Payor_Cigna_Dental + r.Payor_Aetna +
  r.Payor_MetLife + r.Payor_Guardian + r.Payor_United_Healthcare +
  r.Payor_Self_Pay

/-! ### C1: category / payor sums vs Total_Revenue -/

theorem jsRound_sub_abs (q : ℚ) : |(jsRound q : ℚ) - q| ≤ 1/2 := by
  rw [abs_le]
  constructor
  · linarith [lt_jsRound q]
  · linarith [jsRound_le q]

/-- Ten independently rounded normalized shares of `T` sum to within 5
of `T` (each rounding moves a share by at most 1/2). -/
theorem ten_rounded_shares_close (a1 a2 a3 a4 a5 a6 a7 a8 a9 a10 : ℚ) (T : ℤ)
    (hW : 0 < a1 + a2 + a3 + a4 + a5 + a6 + a7 + a8 + a9 + a10) :
    |jsRound (a1 / (a1 + a2 + a3 + a4 + a5 + a6 + a7 + a8 + a9 + a10) * (T : ℚ)) +
      jsRound (a2 / (a1 + a2 + a3 + a4 + a5 + a6 + a7 + a8 + a9 + a10) * (T : ℚ)) +
      jsRound (a3 / (a1 + a2 + a3 + a4 + a5 + a6 + a7 + a8 + a9 + a10) * (T : ℚ)) +
      jsRound (a4 / (a1 + a2 + a3 + a4 + a5 + a6 + a7 + a8 + a9 + a10) * (T : ℚ)) +
      jsRound (a5 / (a1 + a2 + a3 + a4 + a5 + a6 + a7 + a8 + a9 + a10) * (T : ℚ)) +
      jsRound (a6 / (a1 + a2 + a3 + a4 + a5 + a6 + a7 + a8 + a9 + a10) * (T : ℚ)) +
      jsRound (a7 / (a1 + a2 + a3 + a4 + a5 + a6 + a7 + a8 + a9 + a10) * (T : ℚ)) +
      jsRound (a8 / (a1 + a2 + a3 + a4 + a5 + a6 + a7 + a8 + a9 + a10) * (T : ℚ)) +
      jsRound (a9 / (a1 + a2 + a3 + a4 + a5 + a6 + a7 + a8 + a9 + a10) * (T : ℚ)) +
      jsRound (a10 / (a1 + a2 + a3 + a4 + a5 + a6 + a7 + a8 + a9 + a10) * (T : ℚ)) - T| ≤ 5 := by
  set S := a1 + a2 + a3 + a4 + a5 + a6 + a7 + a8 + a9 + a10 with hS
  have hS0 : S ≠ 0 := ne_of_gt hW
  have hsum : a1/S*(T:ℚ) + a2/S*(T:ℚ) + a3/S*(T:ℚ) + a4/S*(T:ℚ) + a5/S*(T:ℚ) +
      a6/S*(T:ℚ) + a7/S*(T:ℚ) + a8/S*(T:ℚ) + a9/S*(T:ℚ) + a10/S*(T:ℚ) = (T:ℚ) := by
    field_simp
    rw [hS]
    ring
  have b1 := jsRound_sub_abs (a1/S*(T:ℚ))
  have b2 := jsRound_sub_abs (a2/S*(T:ℚ))
  have b3 := jsRound_sub_abs (a3/S*(T:ℚ))
  have b4 := jsRound_sub_abs (a4/S*(T:ℚ))
  have b5 := jsRound_sub_abs (a5/S*(T:ℚ))
  have b6 := jsRound_sub_abs (a6/S*(T:ℚ))
  have b7 := jsRound_sub_abs (a7/S*(T:ℚ))
  have b8 := jsRound_sub_abs (a8/S*(T:ℚ))
  have b9 := jsRound_sub_abs (a9/S*(T:ℚ))
  have b10 := jsRound_sub_abs (a10/S*(T:ℚ))
  rw [abs_le] at b1 b2 b3 b4 b5 b6 b7 b8 b9 b10 ⊢
  constructor
  · have hq : (-5 : ℚ) ≤ ((jsRound (a1/S*(T:ℚ)) + jsRound (a2/S*(T:ℚ)) + jsRound (a3/S*(T:ℚ)) +
        jsRound (a4/S*(T:ℚ)) + jsRound (a5/S*(T:ℚ)) + jsRound (a6/S*(T:ℚ)) +
        jsRound (a7/S*(T:ℚ)) + jsRound (a8/S*(T:ℚ)) + jsRound (a9/S*(T:ℚ)) +
        jsRound (a10/S*(T:ℚ)) - T : ℤ) : ℚ) := by
      push_cast
      linarith
    exact_mod_cast hq
  · have hq : ((jsRound (a1/S*(T:ℚ)) + jsRound (a2/S*(T:ℚ)) + jsRound (a3/S*(T:ℚ)) +
        jsRound (a4/S*(T:ℚ)) + jsRound (a5/S*(T:ℚ)) + jsRound (a6/S*(T:ℚ)) +
        jsRound (a7/S*(T:ℚ)) + jsRound (a8/S*(T:ℚ)) + jsRound (a9/S*(T:ℚ)) +
        jsRound (a10/S*(T:ℚ)) - T : ℤ) : ℚ) ≤ 5 := by
      push_cast
      linarith
    exact_mod_cast hq

/-- Seven independently rounded normalized shares of `T` sum to within 3
of `T`. -/
theorem seven_rounded_shares_close (a1 a2 a3 a4 a5 a6 a7 : ℚ) (T : ℤ)
    (hW : 0 < a1 + a2 + a3 + a4 + a5 + a6 + a7) :
    |jsRound (a1 / (a1 + a2 + a3 + a4 + a5 + a6 + a7) * (T : ℚ)) +
      jsRound (a2 / (a1 + a2 + a3 + a4 + a5 + a6 + a7) * (T : ℚ)) +
      jsRound (a3 / (a1 + a2 + a3 + a4 + a5 + a6 + a7) * (T : ℚ)) +
      jsRound (a4 / (a1 + a2 + a3 + a4 + a5 + a6 + a7) * (T : ℚ)) +
      jsRound (a5 / (a1 + a2 + a3 + a4 + a5 + a6 + a7) * (T : ℚ)) +
      jsRound (a6 / (a1 + a2 + a3 + a4 + a5 + a6 + a7) * (T : ℚ)) +
      jsRound (a7 / (a1 + a2 + a3 + a4 + a5 + a6 + a7) * (T : ℚ)) - T| ≤ 3 := by
  set S := a1 + a2 + a3 + a4 + a5 + a6 + a7 with hS
  have hS0 : S ≠ 0 := ne_of_gt hW
  have hsum : a1/S*(T:ℚ) + a2/S*(T:ℚ) + a3/S*(T:ℚ) + a4/S*(T:ℚ) + a5/S*(T:ℚ) +
      a6/S*(T:ℚ) + a7/S*(T:ℚ) = (T:ℚ) := by
    field_simp
    rw [hS]
    ring
  have b1 := jsRound_sub_abs (a1/S*(T:ℚ))
  have b2 := jsRound_sub_abs (a2/S*(T:ℚ))
  have b3 := jsRound_sub_abs (a3/S*(T:ℚ))
  have b4 := jsRound_sub_abs (a4/S*(T:ℚ))
  have b5 := jsRound_sub_abs (a5/S*(T:ℚ))
  have b6 := jsRound_sub_abs (a6/S*(T:ℚ))
  have b7 := jsRound_sub_abs (a7/S*(T:ℚ))
  rw [abs_le] at b1 b2 b3 b4 b5 b6 b7 ⊢
  have hqu : ((jsRound (a1/S*(T:ℚ)) + jsRound (a2/S*(T:ℚ)) + jsRound (a3/S*(T:ℚ)) +
      jsRound (a4/S*(T:ℚ)) + jsRound (a5/S*(T:ℚ)) + jsRound (a6/S*(T:ℚ)) +
      jsRound (a7/S*(T:ℚ)) - T : ℤ) : ℚ) ≤ 7/2 := by
    push_cast
    linarith
  have hql : (-7/2 : ℚ) ≤ ((jsRound (a1/S*(T:ℚ)) + jsRound (a2/S*(T:ℚ)) + jsRound (a3/S*(T:ℚ)) +
      jsRound (a4/S*(T:ℚ)) + jsRound (a5/S*(T:ℚ)) + jsRound (a6/S*(T:ℚ)) +
      jsRound (a7/S*(T:ℚ)) - T : ℤ) : ℚ) := by
    push_cast
    linarith
  constructor
  · have h4 : (-4 : ℚ) < ((jsRound (a1/S*(T:ℚ)) + jsRound (a2/S*(T:ℚ)) + jsRound (a3/S*(T:ℚ)) +
        jsRound (a4/S*(T:ℚ)) + jsRound (a5/S*(T:ℚ)) + jsRound (a6/S*(T:ℚ)) +
        jsRound (a7/S*(T:ℚ)) - T : ℤ) : ℚ) := by linarith
    have h4' : (-4 : ℤ) < jsRound (a1/S*(T:ℚ)) + jsRound (a2/S*(T:ℚ)) + jsRound (a3/S*(T:ℚ)) +
        jsRound (a4/S*(T:ℚ)) + jsRound (a5/S*(T:ℚ)) + jsRound (a6/S*(T:ℚ)) +
        jsRound (a7/S*(T:ℚ)) - T := by exact_mod_cast h4
    omega
  · have h4 : ((jsRound (a1/S*(T:ℚ)) + jsRound (a2/S*(T:ℚ)) + jsRound (a3/S*(T:ℚ)) +
        jsRound (a4/S*(T:ℚ)) + jsRound (a5/S*(T:ℚ)) + jsRound (a6/S*(T:ℚ)) +
        jsRound (a7/S*(T:ℚ)) - T : ℤ) : ℚ) < 4 := by linarith
    have h4' : jsRound (a1/S*(T:ℚ)) + jsRound (a2/S*(T:ℚ)) + jsRound (a3/S*(T:ℚ)) +
        jsRound (a4/S*(T:ℚ)) + jsRound (a5/S*(T:ℚ)) + jsRound (a6/S*(T:ℚ)) +
        jsRound (a7/S*(T:ℚ)) - T < (4 : ℤ) := by exact_mod_cast h4
    omega

/-- C1 (amended). The sum of the 10 revenue-category fields differs from
`Total_Revenue` by at most 5, and the sum of the 7 payor-mix fields by at
most 3: the code rounds each normalized share independently and performs
no reconciliation adjustment, so exact equality is not guaranteed. -/
theorem category_payor_sums_close (year month : ℤ) (loc : Location)
    (d : MonthlyDraws) (hv : ValidDraws loc month d) :
    |catSum (generateMonthlyFinancialData year month loc d) -
      (generateMonthlyFinancialData year month loc d).Total_Revenue| ≤ 5 ∧
    |paySum (generateMonthlyFinancialData year month loc d) -
      (generateMonthlyFinancialData year month loc d).Total_Revenue| ≤ 3 := by
  constructor
  · have hcat : catSum (generateMonthlyFinancialData year month loc d) -
        (generateMonthlyFinancialData year month loc d).Total_Revenue =
        jsRound ((10/100) * d.pDiagnostic /
            ((10/100) * d.pDiagnostic + (20/100) * d.pPreventive + (25/100) * d.pRestorative +
             (8/100) * d.pEndodontic + (7/100) * d.pPeriodontic + (10/100) * d.pProsthodontic +
             (5/100) * d.pOralSurgery + (8/100) * d.pOrthodontic + (5/100) * d.pImplant +
             (2/100) * d.pAdjunctive) * (totalRevenueOf year month loc d : ℚ)) +
          jsRound ((20/100) * d.pPreventive /
            ((10/100) * d.pDiagnostic + (20/100) * d.pPreventive + (25/100) * d.pRestorative +
             (8/100) * d.pEndodontic + (7/100) * d.pPeriodontic + (10/100) * d.pProsthodontic +
             (5/100) * d.pOralSurgery + (8/100) * d.pOrthodontic + (5/100) * d.pImplant +
             (2/100) * d.pAdjunctive) * (totalRevenueOf year month loc d : ℚ)) +
          jsRound ((25/100) * d.pRestorative /
            ((10/100) * d.pDiagnostic + (20/100) * d.pPreventive + (25/100) * d.pRestorative +
             (8/100) * d.pEndodontic + (7/100) * d.pPeriodontic + (10/100) * d.pProsthodontic +
             (5/100) * d.pOralSurgery + (8/100) * d.pOrthodontic + (5/100) * d.pImplant +
             (2/100) * d.pAdjunctive) * (totalRevenueOf year month loc d : ℚ)) +
          jsRound ((8/100) * d.pEndodontic /
            ((10/100) * d.pDiagnostic + (20/100) * d.pPreventive + (25/100) * d.pRestorative +
             (8/100) * d.pEndodontic + (7/100) * d.pPeriodontic + (10/100) * d.pProsthodontic +
             (5/100) * d.pOralSurgery + (8/100) * d.pOrthodontic + (5/100) * d.pImplant +
             (2/100) * d.pAdjunctive) * (totalRevenueOf year month loc d : ℚ)) +
          jsRound ((7/100) * d.pPeriodontic /
            ((10/100) * d.pDiagnostic + (20/100) * d.pPreventive + (25/100) * d.pRestorative +
             (8/100) * d.pEndodontic + (7/100) * d.pPeriodontic + (10/100) * d.pProsthodontic +
             (5/100) * d.pOralSurgery + (8/100) * d.pOrthodontic + (5/100) * d.pImplant +
             (2/100) * d.pAdjunctive) * (totalRevenueOf year month loc d : ℚ)) +
          jsRound ((10/100) * d.pProsthodontic /
            ((10/100) * d.pDiagnostic + (20/100) * d.pPreventive + (25/100) * d.pRestorative +
             (8/100) * d.pEndodontic + (7/100) * d.pPeriodontic + (10/100) * d.pProsthodontic +
             (5/100) * d.pOralSurgery + (8/100) * d.pOrthodontic + (5/100) * d.pImplant +
             (2/100) * d.pAdjunctive) * (totalRevenueOf year month loc d : ℚ)) +
          jsRound ((5/100) * d.pOralSurgery /
            ((10/100) * d.pDiagnostic + (20/100) * d.pPreventive + (25/100) * d.pRestorative +
             (8/100) * d.pEndodontic + (7/100) * d.pPeriodontic + (10/100) * d.pProsthodontic +
             (5/100) * d.pOralSurgery + (8/100) * d.pOrthodontic + (5/100) * d.pImplant +
             (2/100) * d.pAdjunctive) * (totalRevenueOf year month loc d : ℚ)) +
          jsRound ((8/100) * d.pOrthodontic /
            ((10/100) * d.pDiagnostic + (20/100) * d.pPreventive + (25/100) * d.pRestorative +
             (8/100) * d.pEndodontic + (7/100) * d.pPeriodontic + (10/100) * d.pProsthodontic +
             (5/100) * d.pOralSurgery + (8/100) * d.pOrthodontic + (5/100) * d.pImplant +
             (2/100) * d.pAdjunctive) * (totalRevenueOf year month loc d : ℚ)) +
          jsRound ((5/100) * d.pImplant /
            ((10/100) * d.pDiagnostic + (20/100) * d.pPreventive + (25/100) * d.pRestorative +
             (8/100) * d.pEndodontic + (7/100) * d.pPeriodontic + (10/100) * d.pProsthodontic +
             (5/100) * d.pOralSurgery + (8/100) * d.pOrthodontic + (5/100) * d.pImplant +
             (2/100) * d.pAdjunctive) * (totalRevenueOf year month loc d : ℚ)) +
          jsRound ((2/100) * d.pAdjunctive /
            ((10/100) * d.pDiagnostic + (20/100) * d.pPreventive + (25/100) * d.pRestorative +
             (8/100) * d.pEndodontic + (7/100) * d.pPeriodontic + (10/100) * d.pProsthodontic +
             (5/100) * d.pOralSurgery + (8/100) * d.pOrthodontic + (5/100) * d.pImplant +
             (2/100) * d.pAdjunctive) * (totalRevenueOf year month loc d : ℚ)) -
          totalRevenueOf year month loc d := rfl
    rw [hcat]
    apply ten_rounded_shares_close
    obtain ⟨h1, _⟩ := hv.pDiagnostic_mem
    obtain ⟨h2, _⟩ := hv.pPreventive_mem
    obtain ⟨h3, _⟩ := hv.pRestorative_mem
    obtain ⟨h4, _⟩ := hv.pEndodontic_mem
    obtain ⟨h5, _⟩ := hv.pPeriodontic_mem
    obtain ⟨h6, _⟩ := hv.pProsthodontic_mem
    obtain ⟨h7, _⟩ := hv.pOralSurgery_mem
    obtain ⟨h8, _⟩ := hv.pOrthodontic_mem
    obtain ⟨h9, _⟩ := hv.pImplant_mem
    obtain ⟨h10, _⟩ := hv.pAdjunctive_mem
    linarith
  · have hpay : paySum (generateMonthlyFinancialData year month loc d) -
        (generateMonthlyFinancialData year month loc d).Total_Revenue =
        jsRound ((30/100) * d.qDeltaDental /
            ((30/100) * d.qDeltaDental + (15/100) * d.qCignaDental + (12/100) * d.qAetna +
             (10/100) * d.qMetLife + (8/100) * d.qGuardian + (5/100) * d.qUnitedHealthcare +
             (20/100) * d.qSelfPay) * (totalRevenueOf year month loc d : ℚ)) +
          jsRound ((15/100) * d.qCignaDental /
            ((30/100) * d.qDeltaDental + (15/100) * d.qCignaDental + (12/100) * d.qAetna +
             (10/100) * d.qMetLife + (8/100) * d.qGuardian + (5/100) * d.qUnitedHealthcare +
             (20/100) * d.qSelfPay) * (totalRevenueOf year month loc d : ℚ)) +
          jsRound ((12/100) * d.qAetna /
            ((30/100) * d.qDeltaDental + (15/100) * d.qCignaDental + (12/100) * d.qAetna +
             (10/100) * d.qMetLife + (8/100) * d.qGuardian + (5/100) * d.qUnitedHealthcare +
             (20/100) * d.qSelfPay) * (totalRevenueOf year month loc d : ℚ)) +
          jsRound ((10/100) * d.qMetLife /
            ((30/100) * d.qDeltaDental + (15/100) * d.qCignaDental + (12/100) * d.qAetna +
             (10/100) * d.qMetLife + (8/100) * d.qGuardian + (5/100) * d.qUnitedHealthcare +
             (20/100) * d.qSelfPay) * (totalRevenueOf year month loc d : ℚ)) +
          jsRound ((8/100) * d.qGuardian /
            ((30/100) * d.qDeltaDental + (15/100) * d.qCignaDental + (12/100) * d.qAetna +
             (10/100) * d.qMetLife + (8/100) * d.qGuardian + (5/100) * d.qUnitedHealthcare +
             (20/100) * d.qSelfPay) * (totalRevenueOf year month loc d : ℚ)) +
          jsRound ((5/100) * d.qUnitedHealthcare /
            ((30/100) * d.qDeltaDental + (15/100) * d.qCignaDental + (12/100) * d.qAetna +
             (10/100) * d.qMetLife + (8/100) * d.qGuardian + (5/100) * d.qUnitedHealthcare +
             (20/100) * d.qSelfPay) * (totalRevenueOf year month loc d : ℚ)) +
          jsRound ((20/100) * d.qSelfPay /
            ((30/100) * d.qDeltaDental + (15/100) * d.qCignaDental + (12/100) * d.qAetna +
             (10/100) * d.qMetLife + (8/100) * d.qGuardian + (5/100) * d.qUnitedHealthcare +
             (20/100) * d.qSelfPay) * (totalRevenueOf year month loc d : ℚ)) -
          totalRevenueOf year month loc d := rfl
    rw [hpay]
    apply seven_rounded_shares_close
    obtain ⟨g1, _⟩ := hv.qDeltaDental_mem
    obtain ⟨g2, _⟩ := hv.qCignaDental_mem
    obtain ⟨g3, _⟩ := hv.qAetna_mem
    obtain ⟨g4, _⟩ := hv.qMetLife_mem
    obtain ⟨g5, _⟩ := hv.qGuardian_mem
    obtain ⟨g6, _⟩ := hv.qUnitedHealthcare_mem
    obtain ⟨g7, _⟩ := hv.qSelfPay_mem
    linarith

/-- A concrete, in-range draw vector for `LOC003` in December: base
revenue 100000, seasonal factor 0.85, every perturbation exactly 1. -/
def cexDraws : MonthlyDraws :=
  { baseRevenue := 100000
    seasonalFactor := 85/100
    growthMult := 1
    pDiagnostic := 1
    pPreventive := 1
    pRestorative := 1
    pEndodontic := 1
    pPeriodontic := 1
    pProsthodontic := 1
    pOralSurgery := 1
    pOrthodontic := 1
    pImplant := 1
    pAdjunctive := 1
    qDeltaDental := 1
    qCignaDental := 1
    qAetna := 1
    qMetLife := 1
    qGuardian := 1
    qUnitedHealthcare := 1
    qSelfPay := 1
    eLaborClinical := 2/10
    eLaborAdmin := 8/100
    eSuppliesClinical := 6/100
    eSuppliesOffice := 1/100
    eRentFactor := 1
    eUtilities := 2/100
    eEquipment := 4/100
    eMarketing := 5/100
    eInsurance := 3/100
    eProfessionalFees := 3/100
    eContinuingEducation := 1/100
    eLabFees := 8/100
    eSoftwareIT := 2/100
    eTravel := 1/100
    eMisc := 2/100
    procValue := 250
    presentRate := 4/10
    acceptRate := 7/10
    completeRate := 8/10 }

theorem cexDraws_valid : ValidDraws loc003 12 cexDraws := by
  have hlo : baseRevenueLo loc003.id = 100000 := rfl
  have hhi : baseRevenueHi loc003.id = 130000 := rfl
  constructor <;> norm_num [cexDraws, hlo, hhi, seasonalLo, seasonalHi]

/-- Counterexample to C1 as stated: for `LOC003`, December 2020, with
every perturbation drawn as exactly 1 (all draws within their legal
ranges), `Total_Revenue = 103417` but the 10 revenue-category fields sum
to 103416, so the two sums do not both equal `Total_Revenue` exactly. -/
theorem category_payor_sums_exact_counterexample :
    ValidDraws loc003 12 cexDraws ∧
    ¬(catSum (generateMonthlyFinancialData 2020 12 loc003 cexDraws) =
        (generateMonthlyFinancialData 2020 12 loc003 cexDraws).Total_Revenue ∧
      paySum (generateMonthlyFinancialData 2020 12 loc003 cexDraws) =
        (generateMonthlyFinancialData 2020 12 loc003 cexDraws).Total_Revenue) := by
  refine ⟨cexDraws_valid, ?_⟩
  intro h
  have hcat : catSum (generateMonthlyFinancialData 2020 12 loc003 cexDraws) = 103416 := by
    norm_num [catSum, generateMonthlyFinancialData, catAmount, catWeightSum,
      totalRevenueOf, getGrowthFactor, yearsSinceOpening, loc003, cexDraws, jsRound]
  have hTR : (generateMonthlyFinancialData 2020 12 loc003 cexDraws).Total_Revenue = 103417 := by
    norm_num [generateMonthlyFinancialData, totalRevenueOf, getGrowthFactor, yearsSinceOpening,
      loc003, cexDraws, jsRound]
  rw [hcat, hTR] at h
  exact absurd h.1 (by norm_num)

/-- Witness for the amended C1 at the same concrete record. -/
theorem category_payor_sums_close_witness :
    |catSum (generateMonthlyFinancialData 2020 12 loc003 cexDraws) -
      (generateMonthlyFinancialData 2020 12 loc003 cexDraws).Total_Revenue| ≤ 5 ∧
    |paySum (generateMonthlyFinancialData 2020 12 loc003 cexDraws) -
      (generateMonthlyFinancialData 2020 12 loc003 cexDraws).Total_Revenue| ≤ 3 :=
  category_payor_sums_close 2020 12 loc003 cexDraws cexDraws_valid

/-! ### Month enumeration of `generateFinancialDataset` -/

/-- Linear month index: `ymIndex y m = 12*y + m - 1` (month 1-based). -/
def ymIndex (y m : ℤ) : ℤ := 12 * y + m - 1

/-- Lexicographic date comparison, `(y1,m1,d1) < (y2,m2,d2)`. -/
def dateBefore (y1 m1 d1 y2 m2 d2 : ℤ) : Prop :=
  y1 < y2 ∨ (y1 = y2 ∧ (m1 < m2 ∨ (m1 = m2 ∧ d1 < d2)))

instance (y1 m1 d1 y2 m2 d2 : ℤ) : Decidable (dateBefore y1 m1 d1 y2 m2 d2) := by
  unfold dateBefore
  infer_instance

/-- Month index of a location's first emitted record:
`startDate = locationOpenDate > START_DATE ? locationOpenDate : START_DATE`
followed by `setDate(1)` (truncation to the month start). -/
def startIndex (loc : Location) : ℤ :=
  if dateBefore 2020 1 1 loc.opened_year loc.opened_month loc.opened_day
  then ymIndex loc.opened_year loc.opened_month
  else ymIndex 2020 1

/-- Month index of `END_DATE` (April 2025). -/
def endIndex : ℤ := ymIndex 2025 4

/-- The month indices emitted by the `while (currentDate <= END_DATE)`
loop: both `currentDate` and `END_DATE` sit on the first of a month, so
the comparison is exactly a month-index comparison. -/
def emittedMonths (loc : Location) : List ℤ :=
  (List.range (endIndex - startIndex loc + 1).toNat).map
    (fun i : ℕ => startIndex loc + (i : ℤ))

/-- Year of a month index. -/
def yearOf (ym : ℤ) : ℤ := ym / 12

/-- 1-based month of a month index. -/
def monthOf (ym : ℤ) : ℤ := ym % 12 + 1

/-- The monthly records emitted for one location, given the draw vector
used at each month. -/
def locationRecords (loc : Location) (dr : ℤ → MonthlyDraws) :
    List MonthlyFinancialRecord :=
  (emittedMonths loc).map
    (fun ym => generateMonthlyFinancialData (yearOf ym) (monthOf ym) loc (dr ym))

/-! ### C9: the count denominators are strictly positive -/

theorem seasonalLo_ge (month : ℤ) : 85/100 ≤ seasonalLo month := by
  unfold seasonalLo
  split_ifs <;> norm_num

theorem growthFactor_ge_one (year month : ℤ) (loc : Location) (m : ℚ)
    (hy : 0 ≤ yearsSinceOpening year month loc) (hm : 9/10 ≤ m) :
    1 ≤ getGrowthFactor year month loc m := by
  unfold getGrowthFactor
  split_ifs with h1 h2
  · nlinarith [mul_nonneg hy (le_trans (by norm_num) hm)]
  · push_neg at h1
    nlinarith [mul_nonneg (by linarith : (0:ℚ) ≤ yearsSinceOpening year month loc - 2)
      (le_trans (by norm_num) hm)]
  · push_neg at h1 h2
    nlinarith [mul_nonneg (by linarith : (0:ℚ) ≤ yearsSinceOpening year month loc - 4)
      (le_trans (by norm_num) hm)]

theorem startIndex_ge_open (loc : Location) (hloc : loc ∈ locations) :
    ymIndex loc.opened_year loc.opened_month ≤ startIndex loc := by
  have h' : loc ∈ [loc001, loc002, loc003] := hloc
  simp only [List.mem_cons, List.not_mem_nil, or_false] at h'
  rcases h' with h' | h' | h' <;> subst h' <;> decide

theorem locations_base_lo (loc : Location) (hloc : loc ∈ locations) :
    100000 ≤ baseRevenueLo loc.id := by
  have e1 : baseRevenueLo loc001.id = 180000 := rfl
  have e2 : baseRevenueLo loc002.id = 140000 := rfl
  have e3 : baseRevenueLo loc003.id = 100000 := rfl
  have h' : loc ∈ [loc001, loc002, loc003] := hloc
  simp only [List.mem_cons, List.not_mem_nil, or_false] at h'
  rcases h' with h' | h' | h' <;> subst h' <;> omega

theorem totalRevenue_ge (year month : ℤ) (loc : Location) (d : MonthlyDraws)
    (hloc : loc ∈ locations) (hv : ValidDraws loc month d)
    (hym : startIndex loc ≤ ymIndex year month) :
    85000 ≤ totalRevenueOf year month loc d := by
  have hbase : (100000 : ℤ) ≤ d.baseRevenue :=
    le_trans (locations_base_lo loc hloc) hv.base_lo
  have hbq : (100000 : ℚ) ≤ (d.baseRevenue : ℚ) := by exact_mod_cast hbase
  have hs : (85/100 : ℚ) ≤ d.seasonalFactor :=
    le_trans (seasonalLo_ge month) hv.seasonal_lo
  have hyz : 0 ≤ 12 * (year - loc.opened_year) + (month - loc.opened_month) := by
    have := startIndex_ge_open loc hloc
    unfold ymIndex at this hym
    omega
  have hy : 0 ≤ yearsSinceOpening year month loc := by
    have hq : (0 : ℚ) ≤
        ((12 * (year - loc.opened_year) + (month - loc.opened_month) : ℤ) : ℚ) := by
      exact_mod_cast hyz
    unfold yearsSinceOpening
    push_cast at hq ⊢
    linarith
  have hg : 1 ≤ getGrowthFactor year month loc d.growthMult :=
    growthFactor_ge_one year month loc d.growthMult hy hv.growth_lo
  have h1 : (85000 : ℚ) ≤ (d.baseRevenue : ℚ) * d.seasonalFactor := by nlinarith
  have h0 : (0 : ℚ) ≤ (d.baseRevenue : ℚ) * d.seasonalFactor := by nlinarith
  have h2 : (85000 : ℚ) ≤ (d.baseRevenue : ℚ) * d.seasonalFactor *
      getGrowthFactor year month loc d.growthMult := by nlinarith
  have h3 := lt_jsRound ((d.baseRevenue : ℚ) * d.seasonalFactor *
      getGrowthFactor year month loc d.growthMult)
  have h4 : (84999 : ℚ) < (totalRevenueOf year month loc d : ℚ) := by
    unfold totalRevenueOf
    linarith
  have h5 : (84999 : ℤ) < totalRevenueOf year month loc d := by exact_mod_cast h4
  omega

/-- C9. For every emitted monthly record (any in-range draws, any month at
or after the location's start month), `Total_Patient_Visits`,
`Treatment_Plans_Presented` and `Treatment_Plans_Accepted` are strictly
positive, so the `Revenue_Per_Patient`, `Case_Acceptance_Rate` and
`Treatment_Completion_Rate` divisions never divide by zero. -/
theorem monthly_count_denominators_positive (year month : ℤ) (loc : Location)
    (d : MonthlyDraws) (hloc : loc ∈ locations) (hv : ValidDraws loc month d)
    (hym : startIndex loc ≤ ymIndex year month) :
    0 < (generateMonthlyFinancialData year month loc d).Total_Patient_Visits ∧
    0 < (generateMonthlyFinancialData year month loc d).Treatment_Plans_Presented ∧
    0 < (generateMonthlyFinancialData year month loc d).Treatment_Plans_Accepted := by
  have hT : 85000 ≤ totalRevenueOf year month loc d :=
    totalRevenue_ge year month loc d hloc hv hym
  have hTq : (85000 : ℚ) ≤ (totalRevenueOf year month loc d : ℚ) := by exact_mod_cast hT
  have hd0 : (0 : ℤ) < d.procValue := lt_of_lt_of_le (by norm_num) hv.proc_lo
  have hdq0 : (0 : ℚ) < (d.procValue : ℚ) := by exact_mod_cast hd0
  have hdq3 : (d.procValue : ℚ) ≤ 300 := by exact_mod_cast hv.proc_hi
  have hdiv : (85000 : ℚ) / 300 ≤
      (totalRevenueOf year month loc d : ℚ) / (d.procValue : ℚ) := by
    rw [div_le_div_iff₀ (by norm_num) hdq0]
    nlinarith
  have hnp : 283 ≤ numberOfProceduresOf year month loc d := by
    have h1 := lt_jsRound ((totalRevenueOf year month loc d : ℚ) / (d.procValue : ℚ))
    have h2 : (282 : ℚ) < (numberOfProceduresOf year month loc d : ℚ) := by
      unfold numberOfProceduresOf
      linarith
    have h3 : (282 : ℤ) < numberOfProceduresOf year month loc d := by exact_mod_cast h2
    omega
  have hnpq : (283 : ℚ) ≤ (numberOfProceduresOf year month loc d : ℚ) := by
    exact_mod_cast hnp
  have hpv : 198 ≤ patientVisitsOf year month loc d := by
    have h1 := lt_jsRound ((numberOfProceduresOf year month loc d : ℚ) * (7/10))
    have h2 : (197 : ℚ) < (patientVisitsOf year month loc d : ℚ) := by
      unfold patientVisitsOf
      linarith
    have h3 : (197 : ℤ) < patientVisitsOf year month loc d := by exact_mod_cast h2
    omega
  have hpvq : (198 : ℚ) ≤ (patientVisitsOf year month loc d : ℚ) := by exact_mod_cast hpv
  have hpp : 59 ≤ plansPresentedOf year month loc d := by
    have h1 := lt_jsRound ((patientVisitsOf year month loc d : ℚ) * d.presentRate)
    have hprod : (594/10 : ℚ) ≤ (patientVisitsOf year month loc d : ℚ) * d.presentRate := by
      nlinarith [hv.present_lo, hv.present_hi]
    have h2 : (58 : ℚ) < (plansPresentedOf year month loc d : ℚ) := by
      unfold plansPresentedOf
      linarith
    have h3 : (58 : ℤ) < plansPresentedOf year month loc d := by exact_mod_cast h2
    omega
  have hppq : (59 : ℚ) ≤ (plansPresentedOf year month loc d : ℚ) := by exact_mod_cast hpp
  have hpa : 35 ≤ plansAcceptedOf year month loc d := by
    have h1 := lt_jsRound ((plansPresentedOf year month loc d : ℚ) * d.acceptRate)
    have hprod : (354/10 : ℚ) ≤ (plansPresentedOf year month loc d : ℚ) * d.acceptRate := by
      nlinarith [hv.accept_lo, hv.accept_hi]
    have h2 : (34 : ℚ) < (plansAcceptedOf year month loc d : ℚ) := by
      unfold plansAcceptedOf
      linarith
    have h3 : (34 : ℤ) < plansAcceptedOf year month loc d := by exact_mod_cast h2
    omega
  refine ⟨?_, ?_, ?_⟩
  · show 0 < patientVisitsOf year month loc d
    omega
  · show 0 < plansPresentedOf year month loc d
    omega
  · show 0 < plansAcceptedOf year month loc d
    omega

/-- A concrete, in-range draw vector for `LOC001` in June. -/
def okDraws : MonthlyDraws :=
  { cexDraws with baseRevenue := 200000, seasonalFactor := 1 }

/-- Witness for C9 at `LOC001`, June 2021, with concrete in-range draws. -/
theorem monthly_count_denominators_positive_witness :
    0 < (generateMonthlyFinancialData 2021 6 loc001 okDraws).Total_Patient_Visits ∧
    0 < (generateMonthlyFinancialData 2021 6 loc001 okDraws).Treatment_Plans_Presented ∧
    0 < (generateMonthlyFinancialData 2021 6 loc001 okDraws).Treatment_Plans_Accepted := by
  have hlo : baseRevenueLo loc001.id = 180000 := rfl
  have hhi : baseRevenueHi loc001.id = 220000 := rfl
  refine monthly_count_denominators_positive 2021 6 loc001 okDraws
    (by simp [locations]) ?_ ?_
  · constructor <;> norm_num [okDraws, cexDraws, hlo, hhi, seasonalLo, seasonalHi]
  · show startIndex loc001 ≤ ymIndex 2021 6
    have h1 : startIndex loc001 = ymIndex 2020 1 := rfl
    rw [h1]
    unfold ymIndex
    omega

/-! ### C3: monthly coverage completeness -/

theorem count_consecutive (s e x : ℤ) :
    (((List.range (e - s + 1).toNat).map (fun i : ℕ => s + (i : ℤ))).count x) =
      if s ≤ x ∧ x ≤ e then 1 else 0 := by
  have hinj : Function.Injective (fun i : ℕ => s + (i : ℤ)) := by
    intro a b hab
    simp only at hab
    omega
  have hnd : ((List.range (e - s + 1).toNat).map (fun i : ℕ => s + (i : ℤ))).Nodup :=
    List.Nodup.map hinj (List.nodup_range _)
  by_cases hx : s ≤ x ∧ x ≤ e
  · rw [if_pos hx]
    apply List.count_eq_one_of_mem hnd
    rw [List.mem_map]
    refine ⟨(x - s).toNat, ?_, ?_⟩
    · rw [List.mem_range]
      omega
    · show s + ((x - s).toNat : ℤ) = x
      omega
  · rw [if_neg hx, List.count_eq_zero]
    intro hmem
    rw [List.mem_map] at hmem
    obtain ⟨i, hi, hix⟩ := hmem
    rw [List.mem_range] at hi
    have hix' : s + (i : ℤ) = x := hix
    omega

/-- C3. For every location, exactly one monthly record exists for each
month index from `max(open date, 2020-01-01)` truncated to the month
start through 2025-04 inclusive — no gaps, no duplicates, nothing
outside the range; all three locations opened before the global start,
so `LOC003` starts at month index 2020-01 and its first record carries
`Period = "2020-01"` for every draw vector. -/
theorem monthly_coverage_complete :
    (∀ loc ∈ locations, ∀ ym : ℤ,
      (emittedMonths loc).count ym =
        if startIndex loc ≤ ym ∧ ym ≤ endIndex then 1 else 0) ∧
    startIndex loc003 = ymIndex 2020 1 ∧
    (∀ dr : ℤ → MonthlyDraws,
      (locationRecords loc003 dr).head?.map (fun r => r.Period) =
        some ("2020-01")) := by
  refine ⟨?_, by decide, ?_⟩
  · intro loc _ ym
    exact count_consecutive (startIndex loc) endIndex ym
  · intro dr
    rfl

/-- Witness for C3: `LOC001` has exactly one record for January 2020 and
none for December 2019. -/
theorem monthly_coverage_complete_witness :
    (emittedMonths loc001).count (ymIndex 2020 1) = 1 ∧
    (emittedMonths loc001).count (ymIndex 2019 12) = 0 := by
  have h := monthly_coverage_complete.1 loc001 (by simp [locations])
  constructor
  · rw [h (ymIndex 2020 1)]
    decide
  · rw [h (ymIndex 2019 12)]
    decide

/-! ### C4: MoM / YoY comparative metrics -/

/-- `financialData.find(...)` for the previous calendar month of the same
location, wrapping January to December of the prior year. -/
def findPrevMonth (data : List MonthlyFinancialRecord)
    (cur : MonthlyFinancialRecord) : Option MonthlyFinancialRecord :=
  data.find? (fun item =>
    item.Location_ID == cur.Location_ID &&
    item.Year == (if cur.Month == 1 then cur.Year - 1 else cur.Year) &&
    item.Month == (if cur.Month == 1 then 12 else cur.Month - 1))

/-- `financialData.find(...)` for the same month of the previous year at
the same location. -/
def findPrevYear (data : List MonthlyFinancialRecord)
    (cur : MonthlyFinancialRecord) : Option MonthlyFinancialRecord :=
  data.find? (fun item =>
    item.Location_ID == cur.Location_ID &&
    item.Year == cur.Year - 1 &&
    item.Month == cur.Month)

/-- `x.toFixed(4)` as a rational: round to 4 decimal places, ties toward
the larger value. -/
def round4 (x : ℚ) : ℚ := (jsRound (x * 10000) : ℚ) / 10000

theorem round4_close (x : ℚ) : |round4 x - x| ≤ 1/10000 := by
  have h := jsRound_sub_abs (x * 10000)
  rw [abs_le] at h ⊢
  unfold round4
  constructor
  · have := h.1
    linarith
  · have := h.2
    linarith

/-- The MoM update of one record during the comparative pass. -/
def updateMoM (data : List MonthlyFinancialRecord)
    (cur : MonthlyFinancialRecord) : MonthlyFinancialRecord :=
  match findPrevMonth data cur with
  | some prev =>
    { cur with
      Revenue_MoM_Change :=
        round4 (((cur.Total_Revenue : ℚ) - (prev.Total_Revenue : ℚ)) /
          (prev.Total_Revenue : ℚ))
      EBITDA_MoM_Change :=
        round4 (((cur.EBITDA : ℚ) - (prev.EBITDA : ℚ)) / (prev.EBITDA : ℚ)) }
  | none => cur

/-- MoM then YoY update of one record (the finds read only location, year
and month, which the pass never mutates, so both lookups see the original
values). -/
def updateComparatives (data : List MonthlyFinancialRecord)
    (cur : MonthlyFinancialRecord) : MonthlyFinancialRecord :=
  match findPrevYear data cur with
  | some prev =>
    { updateMoM data cur with
      Revenue_YoY_Change :=
        round4 (((cur.Total_Revenue : ℚ) - (prev.Total_Revenue : ℚ)) /
          (prev.Total_Revenue : ℚ))
      EBITDA_YoY_Change :=
        round4 (((cur.EBITDA : ℚ) - (prev.EBITDA : ℚ)) / (prev.EBITDA : ℚ)) }
  | none => updateMoM data cur

/-- The comparative-metrics pass over the whole dataset. -/
def applyComparatives (data : List MonthlyFinancialRecord) :
    List MonthlyFinancialRecord :=
  data.map (fun cur => updateComparatives data cur)

/-- C4. After the comparative pass: a record with a same-location
previous-month record carries `Revenue_MoM_Change` and
`EBITDA_MoM_Change` equal to `(current - previous)/previous` over
`Total_Revenue` resp. `EBITDA` to within 1e-4; the YoY fields behave the
same against the same-location previous-year record; a record with no
matching prior record keeps its placeholder 0 in the corresponding
fields. -/
theorem comparative_deltas_correct (data : List MonthlyFinancialRecord)
    (cur : MonthlyFinancialRecord) (hmem : cur ∈ data)
    (hR0 : cur.Revenue_MoM_Change = 0) (hE0 : cur.EBITDA_MoM_Change = 0)
    (hRy0 : cur.Revenue_YoY_Change = 0) (hEy0 : cur.EBITDA_YoY_Change = 0) :
    updateComparatives data cur ∈ applyComparatives data ∧
    (∀ prev, findPrevMonth data cur = some prev →
      |(updateComparatives data cur).Revenue_MoM_Change -
        ((cur.Total_Revenue : ℚ) - (prev.Total_Revenue : ℚ)) /
          (prev.Total_Revenue : ℚ)| ≤ 1/10000) ∧
    (∀ prev, findPrevMonth data cur = some prev →
      |(updateComparatives data cur).EBITDA_MoM_Change -
        ((cur.EBITDA : ℚ) - (prev.EBITDA : ℚ)) / (prev.EBITDA : ℚ)| ≤ 1/10000) ∧
    (findPrevMonth data cur = none →
      (updateComparatives data cur).Revenue_MoM_Change = 0 ∧
      (updateComparatives data cur).EBITDA_MoM_Change = 0) ∧
    (∀ prev, findPrevYear data cur = some prev →
      |(updateComparatives data cur).Revenue_YoY_Change -
        ((cur.Total_Revenue : ℚ) - (prev.Total_Revenue : ℚ)) /
          (prev.Total_Revenue : ℚ)| ≤ 1/10000) ∧
    (∀ prev, findPrevYear data cur = some prev →
      |(updateComparatives data cur).EBITDA_YoY_Change -
        ((cur.EBITDA : ℚ) - (prev.EBITDA : ℚ)) / (prev.EBITDA : ℚ)| ≤ 1/10000) ∧
    (findPrevYear data cur = none →
      (updateComparatives data cur).Revenue_YoY_Change = 0 ∧
      (updateComparatives data cur).EBITDA_YoY_Change = 0) := by
  refine ⟨List.mem_map_of_mem _ hmem, ?_, ?_, ?_, ?_, ?_, ?_⟩ <;>
    rcases hy : findPrevYear data cur with _ | py <;>
    rcases hm : findPrevMonth data cur with _ | pm <;>
    first
      | (intro prev hprev
         exact Option.noConfusion hprev)
      | (intro prev hprev
         injection hprev with heq
         subst heq
         simp only [updateComparatives, updateMoM, hy, hm]
         exact round4_close _)
      | (intro hnone
         exact Option.noConfusion hnone)
      | (intro hnone
         simp only [updateComparatives, updateMoM, hy, hm]
         exact ⟨hR0, hE0⟩)
      | (intro hnone
         simp only [updateComparatives, updateMoM, hy, hm]
         exact ⟨hRy0, hEy0⟩)

/-- Concrete January record used by the C4 witness. -/
def recA : MonthlyFinancialRecord :=
  { Location_ID := "LOC001"
    Year := 2021
    Month := 1
    Period := "2021-01"
    Total_Revenue := 100
    Revenue_Diagnostic := 10
    Revenue_Preventive := 10
    Revenue_Restorative := 10
    Revenue_Endodontic := 10
    Revenue_Periodontic := 10
    Revenue_Prosthodontic := 10
    Revenue_Oral_Surgery := 10
    Revenue_Orthodontic := 10
    Revenue_Implant := 10
    Revenue_Adjunctive := 10
    Total_Expenses := 90
    EBITDA := 10
    Payor_Delta_Dental := 20
    Payor_Cigna_Dental := 20
    Payor_Aetna := 10
    Payor_MetLife := 10
    Payor_Guardian := 10
    Payor_United_Healthcare := 10
    Payor_Self_Pay := 20
    Total_Patient_Visits := 50
    Treatment_Plans_Presented := 20
    Treatment_Plans_Accepted := 15
    Treatment_Plans_Completed := 10
    Revenue_MoM_Change := 0
    Revenue_YoY_Change := 0
    EBITDA_MoM_Change := 0
    EBITDA_YoY_Change := 0 }

/-- Concrete February record used by the C4 witness: revenue up 10%,
EBITDA doubled. -/
def recB : MonthlyFinancialRecord :=
  { recA with Month := 2, Period := "2021-02", Total_Revenue := 110, EBITDA := 20 }

/-- Two consecutive months of one location. -/
def pairData : List MonthlyFinancialRecord := [recA, recB]

/-- Witness for C4: in a two-record dataset, the February record gets
`Revenue_MoM_Change = 0.1` and `EBITDA_MoM_Change = 1` exactly, and its
YoY fields keep the placeholder 0. -/
theorem comparative_deltas_correct_witness :
    |(updateComparatives pairData recB).Revenue_MoM_Change - (1/10 : ℚ)| ≤ 1/10000 ∧
    |(updateComparatives pairData recB).EBITDA_MoM_Change - (1 : ℚ)| ≤ 1/10000 ∧
    (updateComparatives pairData recB).Revenue_YoY_Change = 0 ∧
    (updateComparatives pairData recB).EBITDA_YoY_Change = 0 := by
  have h := comparative_deltas_correct pairData recB
    (by simp [pairData]) rfl rfl rfl rfl
  have hm : findPrevMonth pairData recB = some recA := rfl
  have hy : findPrevYear pairData recB = none := rfl
  have hvalR : ((recB.Total_Revenue : ℚ) - (recA.Total_Revenue : ℚ)) /
      (recA.Total_Revenue : ℚ) = 1/10 := by norm_num [recA, recB]
  have hvalE : ((recB.EBITDA : ℚ) - (recA.EBITDA : ℚ)) / (recA.EBITDA : ℚ) = 1 := by
    norm_num [recA, recB]
  refine ⟨?_, ?_, ?_, ?_⟩
  · have h2 := h.2.1 recA hm
    rw [hvalR] at h2
    exact h2
  · have h2 := h.2.2.1 recA hm
    rw [hvalE] at h2
    exact h2
  · exact (h.2.2.2.2.2.2 hy).1
  · exact (h.2.2.2.2.2.2 hy).2

end Dental
